import Mathlib

/-!
Verification of the vote-casting and tallying subsystem of the
MipripityApp/mipripity_web repository.

The relational state (tables `properties`, `vote_options`, `users`, `votes`
from `src/backend/migrations/001_initial_schema.sql`) is embedded as lists
of rows; ids are natural numbers; SQL queries are translated to list
operations with the same denotation (WHERE = filter, ORDER BY is dropped
where the stated properties are order-insensitive, COUNT = length,
LEFT JOIN + GROUP BY = a map over the outer table with per-group counts).
PostgreSQL `numeric` arithmetic in the statistics query is modelled exactly
over the rationals.

The operations embedded are:
  * `VoteModel.createOrUpdateVote`, `VoteModel.getVoteByUserAndProperty`,
    `VoteModel.deleteVote`, `VoteModel.getVoteOptionsByCategory`
    (src/backend/models/voteModel.js);
  * the `POST /` handler of src/backend/routes/votes.js;
  * the `POST /votes` and `GET /properties/:id/stats` handlers of the
    standalone server variant (src/unnamed/part_003);
  * the `GET /properties/:id/stats` handler of the second server variant
    (src/unnamed/part_004).
-/

namespace Mipripity

/-- A row of the `votes` table (001_initial_schema.sql, lines 67-74).
`created_at` is modelled as a logical tick counter. -/
structure VoteRow where
  id : Nat
  property_id : Nat
  user_id : Nat
  vote_option_id : Nat
  created_at : Nat
deriving DecidableEq, Repr

/-- A row of the `vote_options` table (001_initial_schema.sql, lines 34-41). -/
structure VoteOptionRow where
  id : Nat
  name : String
  category_id : Nat
deriving DecidableEq, Repr

/-- A row of the `properties` table, restricted to the columns the vote
subsystem reads (001_initial_schema.sql, lines 44-55). -/
structure PropertyRow where
  id : Nat
  category_id : Nat
deriving DecidableEq, Repr

/-- A row of the `users` table, restricted to the columns the vote
subsystem reads (001_initial_schema.sql, lines 13-23). -/
structure UserRow where
  id : Nat
  firebase_uid : String
deriving DecidableEq, Repr

/-- The database state seen by the vote subsystem.  `nextVoteId` models the
`votes.id` SERIAL sequence and `now` models CURRENT_TIMESTAMP. -/
structure Db where
  properties : List PropertyRow
  vote_options : List VoteOptionRow
  users : List UserRow
  votes : List VoteRow
  nextVoteId : Nat
  now : Nat
deriving DecidableEq, Repr

/-- The WHERE clause `property_id = $1 AND user_id = $2` shared by the
SELECT, UPDATE and DELETE statements of voteModel.js. -/
def pairMatch (pid uid : Nat) (v : VoteRow) : Bool :=
  v.property_id == pid && v.user_id == uid

/-- `SELECT * FROM votes WHERE property_id = $1 AND user_id = $2`
(voteModel.js, lines 21-24). -/
def selectVotesByPair (db : Db) (pid uid : Nat) : List VoteRow :=
  db.votes.filter (pairMatch pid uid)

/-- The write half of `VoteModel.createOrUpdateVote` (voteModel.js,
lines 26-45): given the result of the existing-vote SELECT, either
`UPDATE votes SET vote_option_id = $1, created_at = CURRENT_TIMESTAMP
WHERE property_id = $2 AND user_id = $3` or
`INSERT INTO votes (property_id, user_id, vote_option_id) VALUES ...`.
Returns the post-write state and the RETURNING * row. -/
def applyVoteWrite (db : Db) (pid uid oid : Nat) (existing : List VoteRow) :
    Db × VoteRow :=
  match existing with
  | e :: _ =>
      let votes := db.votes.map (fun v =>
        if pairMatch pid uid v then
          { v with vote_option_id := oid, created_at := db.now }
        else v)
      let row : VoteRow :=
        { id := e.id, property_id := pid, user_id := uid,
          vote_option_id := oid, created_at := db.now }
      ({ db with votes := votes, now := db.now + 1 }, row)
  | [] =>
      let row : VoteRow :=
        { id := db.nextVoteId, property_id := pid, user_id := uid,
          vote_option_id := oid, created_at := db.now }
      ({ db with votes := db.votes ++ [row],
                 nextVoteId := db.nextVoteId + 1, now := db.now + 1 }, row)

/-- `VoteModel.createOrUpdateVote` (voteModel.js, lines 12-57), successful
sequential execution: SELECT the existing vote for the pair inside the
transaction, then UPDATE in place if present, else INSERT, then COMMIT. -/
def createOrUpdateVote (db : Db) (pid uid oid : Nat) : Db × VoteRow :=
  applyVoteWrite db pid uid oid (selectVotesByPair db pid uid)

/-- Error outcomes a database call can surface to the model layer. -/
inductive DbErr where
  | uniqueViolation
  | unavailable
deriving DecidableEq, Repr

/-- `VoteModel.createOrUpdateVote` with an injected failure point.  The
body runs `BEGIN`, the SELECT (step 0), the UPDATE or INSERT (step 1) and
`COMMIT` (step 2); an error thrown at any of the three steps reaches the
catch block of voteModel.js lines 50-53, which issues `ROLLBACK` (so the
externally visible state is the input state) and rethrows the error. -/
def createOrUpdateVoteTx (db : Db) (pid uid oid : Nat)
    (failAt : Option (Fin 3)) : Db × Except DbErr VoteRow :=
  if failAt = some 0 then (db, Except.error DbErr.unavailable)
  else
    let existing := selectVotesByPair db pid uid
    if failAt = some 1 then (db, Except.error DbErr.unavailable)
    else
      let pending := applyVoteWrite db pid uid oid existing
      if failAt = some 2 then (db, Except.error DbErr.unavailable)
      else (pending.1, Except.ok pending.2)

/-- `VoteModel.createOrUpdateVote` under a lost insert race.  The SELECT of
lines 21-24 observes the snapshot `checkDb`; by the time the INSERT of
lines 39-44 runs, the committed state is `applyDb` (another transaction
for the same pair may have committed in between).  If the SELECT saw no row
but `applyDb` already holds one, the INSERT violates the
`UNIQUE(property_id, user_id)` constraint (001_initial_schema.sql, line 73);
the catch block (lines 50-53) rolls back and rethrows, so the error is
returned to the caller. -/
def createOrUpdateVoteRaced (checkDb applyDb : Db) (pid uid oid : Nat) :
    Db × Except DbErr VoteRow :=
  match selectVotesByPair checkDb pid uid with
  | _ :: _ =>
      let (db2, row) := applyVoteWrite applyDb pid uid oid
        (selectVotesByPair applyDb pid uid)
      (db2, Except.ok row)
  | [] =>
      match selectVotesByPair applyDb pid uid with
      | _ :: _ => (applyDb, Except.error DbErr.uniqueViolation)
      | [] =>
          let (db2, row) := applyVoteWrite applyDb pid uid oid []
          (db2, Except.ok row)

/-- The row shape returned by `VoteModel.getVoteByUserAndProperty`:
`SELECT v.*, vo.name AS vote_option_name`. -/
structure VoteWithOptionName where
  vote : VoteRow
  vote_option_name : String
deriving DecidableEq, Repr

/-- `VoteModel.getVoteByUserAndProperty` (voteModel.js, lines 65-80):
join of the pair's votes with `vote_options`, returning the first row or
`none` (`result.rows[0] || null`). -/
def getVoteByUserAndProperty (db : Db) (pid uid : Nat) :
    Option VoteWithOptionName :=
  let rows := (selectVotesByPair db pid uid).filterMap (fun v =>
    (db.vote_options.find? (fun o => o.id == v.vote_option_id)).map
      (fun o => VoteWithOptionName.mk v o.name))
  rows.head?

/-- `VoteModel.deleteVote` (voteModel.js, lines 88-100):
`DELETE FROM votes WHERE property_id = $1 AND user_id = $2 RETURNING id`;
the boolean is `result.rows.length > 0`. -/
def deleteVote (db : Db) (pid uid : Nat) : Db × Bool :=
  let deleted := selectVotesByPair db pid uid
  let remaining := db.votes.filter (fun v => !(pairMatch pid uid v))
  ({ db with votes := remaining }, !deleted.isEmpty)

/-- `VoteModel.getVoteOptionsByCategory` (voteModel.js, lines 131-145):
`SELECT * FROM vote_options WHERE category_id = $1 ORDER BY name`.
The ORDER BY is dropped: the handlers below only test membership. -/
def getVoteOptionsByCategory (db : Db) (catId : Nat) : List VoteOptionRow :=
  db.vote_options.filter (fun o => o.category_id == catId)

/-! ## HTTP request bodies and JavaScript truthiness -/

/-- The fields of `req.body` a vote-cast handler may read.  Each field is
`none` when absent from the JSON body. -/
structure VoteReqBody where
  property_id : Option Nat
  vote_option_id : Option Nat
  user_id : Option Nat
deriving DecidableEq, Repr

/-- JavaScript falsiness of an optional numeric body field: `!x` is true
when the field is `undefined` or `0`. -/
def jsFalsy (o : Option Nat) : Bool :=
  o.isNone || o == some 0

/-! ## POST / of src/backend/routes/votes.js (lines 14-64) -/

/-- Responses of the routes/votes.js `POST /` handler.  Constructors record
the status code and the JSON body keys actually sent: 400 and 404 send
keys `error` and `message`, 201 sends keys `message` and `vote`. -/
inductive RoutesVotesResp where
  | badRequest (message : String)
  | notFound (message : String)
  | created (message : String) (vote : VoteRow)
  | serverError
deriving DecidableEq, Repr

/-- HTTP status code of a routes/votes.js `POST /` response. -/
def RoutesVotesResp.status : RoutesVotesResp → Nat
  | .badRequest _ => 400
  | .notFound _ => 404
  | .created _ _ => 201
  | .serverError => 500

/-- The `POST /` handler of src/backend/routes/votes.js: destructures only
`property_id` and `vote_option_id` from the body, 400 on falsy fields,
404 when the property does not exist, 400 when the option is not among the
options of the property's category, otherwise
`createOrUpdateVote` with `user_id := req.user.id` and a 201. -/
def routesVotesPost (db : Db) (user : UserRow) (body : VoteReqBody) :
    Db × RoutesVotesResp :=
  if jsFalsy body.property_id || jsFalsy body.vote_option_id then
    (db, RoutesVotesResp.badRequest
      "Missing required fields: property_id, vote_option_id")
  else
    let pid := body.property_id.getD 0
    let oid := body.vote_option_id.getD 0
    match db.properties.find? (fun p => p.id == pid) with
    | none => (db, RoutesVotesResp.notFound "Property not found")
    | some property =>
        let voteOptions := getVoteOptionsByCategory db property.category_id
        if voteOptions.any (fun o => o.id == oid) then
          let res := createOrUpdateVote db pid user.id oid
          (res.1, RoutesVotesResp.created "Vote recorded successfully" res.2)
        else
          (db, RoutesVotesResp.badRequest
            "Invalid vote option for this property category")

/-! ## POST /votes of the standalone server variant (src/unnamed/part_003,
lines 870-927) -/

/-- Responses of the part_003 `POST /votes` handler: 400 and 404 send
`success: false` with key `error`; 201 sends `success: true` with keys
`data` and `message`; the catch block sends 500. -/
inductive P3VotesResp where
  | badRequestErr (error : String)
  | notFoundErr (error : String)
  | createdData (data : VoteRow) (message : String)
  | serverErrorMsg (error : String)
deriving DecidableEq, Repr

/-- HTTP status code of a part_003 `POST /votes` response. -/
def P3VotesResp.status : P3VotesResp → Nat
  | .badRequestErr _ => 400
  | .notFoundErr _ => 404
  | .createdData _ _ => 201
  | .serverErrorMsg _ => 500

/-- The `POST /votes` handler of src/unnamed/part_003: destructures only
`property_id` and `vote_option_id`, 400 on falsy fields, resolves the
caller row by `firebase_uid = req.user.uid` (404 when absent), 400 when a
vote for the pair already exists, then a bare
`INSERT INTO votes (user_id, property_id, vote_option_id)`.  The handler
performs no property-existence and no category check; a `property_id` or
`vote_option_id` that matches no row makes the INSERT violate a foreign
key, which the catch block surfaces as a 500. -/
def part003VotesPost (db : Db) (callerUid : String) (body : VoteReqBody) :
    Db × P3VotesResp :=
  if jsFalsy body.property_id || jsFalsy body.vote_option_id then
    (db, P3VotesResp.badRequestErr "Property ID and vote option ID are required")
  else
    let pid := body.property_id.getD 0
    let oid := body.vote_option_id.getD 0
    match db.users.find? (fun u => u.firebase_uid == callerUid) with
    | none => (db, P3VotesResp.notFoundErr "User not found. Please register first.")
    | some u =>
        match selectVotesByPair db pid u.id with
        | _ :: _ =>
            (db, P3VotesResp.badRequestErr "You have already voted for this property")
        | [] =>
            if db.properties.any (fun p => p.id == pid) &&
               db.vote_options.any (fun o => o.id == oid) then
              let row : VoteRow :=
                { id := db.nextVoteId, property_id := pid, user_id := u.id,
                  vote_option_id := oid, created_at := db.now }
              ({ db with votes := db.votes ++ [row],
                         nextVoteId := db.nextVoteId + 1, now := db.now + 1 },
               P3VotesResp.createdData row "Vote recorded successfully")
            else (db, P3VotesResp.serverErrorMsg "Failed to create vote")

/-! ## GET /properties/:id/stats (src/unnamed/part_003 lines 986-1025 and
src/unnamed/part_004 lines 201-237) -/

/-- `ROUND(x, 2)` of PostgreSQL on a nonnegative `numeric`, modelled
exactly over the rationals (the percentages below are nonnegative, where
round-half-up and round-half-away-from-zero agree). -/
def round2 (q : ℚ) : ℚ :=
  ((round (q * 100) : ℤ) : ℚ) / 100

/-- `COUNT(v.id)` of one group of the statistics query: the votes for
property `pid` whose `vote_option_id` is `oid`
(`LEFT JOIN votes v ON vo.id = v.vote_option_id AND v.property_id = $1`). -/
def countVotesFor (db : Db) (pid oid : Nat) : Nat :=
  (db.votes.filter (fun v => v.vote_option_id == oid && v.property_id == pid)).length

/-- `ROUND(COUNT(v.id) * 100.0 / NULLIF(SUM(COUNT(v.id)) OVER(), 0), 2)`:
when the window total is `0`, `NULLIF` yields SQL NULL and the whole
percentage is NULL (modelled as `none`). -/
def statPercentage (c total : Nat) : Option ℚ :=
  if total = 0 then none
  else some (round2 ((c : ℚ) * 100 / (total : ℚ)))

/-- One row of the statistics result.  `percentage` is `Option`-valued
because the SQL expression is NULL when the window total is 0. -/
structure StatRow where
  option_name : String
  vote_option_id : Nat
  vote_count : Nat
  percentage : Option ℚ
deriving DecidableEq, Repr

/-- `SUM(COUNT(v.id)) OVER()`: the window total over the groups of the
statistics query, one group per vote option in `opts`. -/
def windowTotal (db : Db) (pid : Nat) (opts : List VoteOptionRow) : Nat :=
  (opts.map (fun o => countVotesFor db pid o.id)).sum

/-- One group row of the statistics query: option name and id, the count
of the property's votes for that option, and the rounded percentage
against the window total. -/
def statRowFor (db : Db) (pid total : Nat) (o : VoteOptionRow) : StatRow :=
  { option_name := o.name, vote_option_id := o.id,
    vote_count := countVotesFor db pid o.id,
    percentage := statPercentage (countVotesFor db pid o.id) total }

/-- The grouped rows over a given option set: the shared shape of both
stats queries. -/
def statRowsOver (db : Db) (pid : Nat) (opts : List VoteOptionRow) :
    List StatRow :=
  opts.map (statRowFor db pid (windowTotal db pid opts))

/-- The statistics query of part_003 `GET /properties/:id/stats`
(lines 991-1003): vote options restricted to the property's category via
`JOIN properties p ON p.id = $1 ... WHERE vo.category_id = p.category_id`
(an absent property makes the join empty, hence no groups), LEFT JOIN with
the property's votes, one group per option.  The `ORDER BY vote_count DESC`
is dropped: the properties proved below are about the row multiset. -/
def part003StatsRows (db : Db) (pid : Nat) : List StatRow :=
  match db.properties.find? (fun p => p.id == pid) with
  | none => []
  | some p =>
      statRowsOver db pid
        (db.vote_options.filter (fun o => o.category_id == p.category_id))

/-- The statistics query of part_004 `GET /properties/:id/stats`
(lines 205-215): same per-option counting, but `FROM vote_options vo` with
no property join and no category filter, so one group for every row of
`vote_options` regardless of category.  (The query selects
`vo.option_text`; the schema of 001_initial_schema.sql names the display
column `name`, modelled here as the `name` field.) -/
def part004StatsRows (db : Db) (pid : Nat) : List StatRow :=
  statRowsOver db pid db.vote_options

/-- The second, separate query of both stats handlers
(`SELECT COUNT(*) as total FROM votes WHERE property_id = $1`). -/
def votesTotalForProperty (db : Db) (pid : Nat) : Nat :=
  (db.votes.filter (fun v => v.property_id == pid)).length

/-- The part_003 stats endpoint as executed: the statistics rows are read
from the state `s1` current at the first query, the `total_votes` field
from the state `s2` current at the second query; the two queries run
outside any common transaction, so `s2` may differ from `s1`. -/
def part003StatsEndpoint (s1 s2 : Db) (pid : Nat) : List StatRow × Nat :=
  (part003StatsRows s1 pid, votesTotalForProperty s2 pid)

/-! ## Sequences of casts (for the uniqueness invariant) -/

/-- One `castOrUpdateVote` request. -/
structure Cast where
  property_id : Nat
  user_id : Nat
  vote_option_id : Nat
deriving DecidableEq, Repr

/-- State after one sequential `createOrUpdateVote` call. -/
def castStep (db : Db) (c : Cast) : Db :=
  (createOrUpdateVote db c.property_id c.user_id c.vote_option_id).1

/-- State after a sequence of sequential `createOrUpdateVote` calls. -/
def castSeq (db : Db) : List Cast → Db
  | [] => db
  | c :: cs => castSeq (castStep db c) cs

/-- The option of the last cast in the sequence for the pair, if any. -/
def lastCast : List Cast → Nat → Nat → Option Nat
  | [], _, _ => none
  | c :: cs, pid, uid =>
      match lastCast cs pid uid with
      | some o => some o
      | none =>
          if c.property_id == pid && c.user_id == uid then
            some c.vote_option_id
          else none

/-- The invariant enforced by `UNIQUE(property_id, user_id)`
(001_initial_schema.sql, line 73): no two rows of `votes` share a
`(property_id, user_id)` pair. -/
def UniquePairs (db : Db) : Prop :=
  db.votes.Pairwise (fun a b =>
    ¬(a.property_id = b.property_id ∧ a.user_id = b.user_id))

instance (db : Db) : Decidable (UniquePairs db) := by
  unfold UniquePairs; infer_instance

/-! ## Concrete fixtures used by witnesses and counterexamples -/

/-- A base state: property 1 in category 1, options Rent and Buy in
category 1 and Invest in category 2, two registered users, no votes. -/
def db0 : Db :=
  { properties := [{ id := 1, category_id := 1 }],
    vote_options :=
      [{ id := 1, name := "Rent", category_id := 1 },
       { id := 2, name := "Buy", category_id := 1 },
       { id := 5, name := "Invest", category_id := 2 }],
    users :=
      [{ id := 1, firebase_uid := "uid1" },
       { id := 2, firebase_uid := "uid2" }],
    votes := [], nextVoteId := 1, now := 0 }

/-- `db0` after user 1 voted option 1 (Rent) on property 1. -/
def db1 : Db :=
  { db0 with
    votes := [{ id := 1, property_id := 1, user_id := 1,
                vote_option_id := 1, created_at := 0 }],
    nextVoteId := 2, now := 1 }

/-- `db0` after a cross-category vote: user 1 voted option 5 (category 2)
on property 1 (category 1) — a state the part_003 `POST /votes` handler
itself produces, since it never checks the category. -/
def dbX : Db :=
  { db0 with
    votes := [{ id := 1, property_id := 1, user_id := 1,
                vote_option_id := 5, created_at := 0 }],
    nextVoteId := 2, now := 1 }

/-! ## Lemmas about the pair predicate and `createOrUpdateVote` -/

theorem pairMatch_iff (pid uid : Nat) (v : VoteRow) :
    pairMatch pid uid v = true ↔ v.property_id = pid ∧ v.user_id = uid := by
  simp [pairMatch]

/-- The UPDATE of voteModel.js touches only `vote_option_id` and
`created_at`, so it never changes which pair a row belongs to. -/
theorem pairMatch_update (cpid cuid oid n pid uid : Nat) (v : VoteRow) :
    pairMatch pid uid
      (if pairMatch cpid cuid v then
        { v with vote_option_id := oid, created_at := n } else v)
      = pairMatch pid uid v := by
  by_cases h : pairMatch cpid cuid v = true
  · rw [if_pos h]; simp [pairMatch]
  · rw [if_neg h]

/-- Under the uniqueness constraint, the existing-vote SELECT returns at
most one row. -/
theorem selectVotes_length_le_one (db : Db) (hdb : UniquePairs db)
    (pid uid : Nat) : (selectVotesByPair db pid uid).length ≤ 1 := by
  have hpw : (selectVotesByPair db pid uid).Pairwise
      (fun a b => ¬(a.property_id = b.property_id ∧ a.user_id = b.user_id)) :=
    List.Pairwise.sublist (List.filter_sublist _) hdb
  cases h : selectVotesByPair db pid uid with
  | nil => simp
  | cons a t =>
      cases t with
      | nil => simp
      | cons b t' =>
          exfalso
          rw [h] at hpw
          have hR := (List.pairwise_cons.mp hpw).1 b (List.mem_cons_self b t')
          have ha : a ∈ selectVotesByPair db pid uid := by
            rw [h]; exact List.mem_cons_self _ _
          have hb : b ∈ selectVotesByPair db pid uid := by
            rw [h]; exact List.mem_cons_of_mem _ (List.mem_cons_self _ _)
          have ha2 := (pairMatch_iff pid uid a).mp (List.mem_filter.mp ha).2
          have hb2 := (pairMatch_iff pid uid b).mp (List.mem_filter.mp hb).2
          exact hR ⟨ha2.1.trans hb2.1.symm, ha2.2.trans hb2.2.symm⟩

/-- After a cast for a pair, the pair has exactly one row, holding the
cast's option. -/
theorem selectVotes_castStep_self (db : Db) (hdb : UniquePairs db) (c : Cast) :
    ∃ r, selectVotesByPair (castStep db c) c.property_id c.user_id = [r] ∧
         r.vote_option_id = c.vote_option_id := by
  unfold castStep createOrUpdateVote
  cases h : selectVotesByPair db c.property_id c.user_id with
  | nil =>
      refine ⟨{ id := db.nextVoteId, property_id := c.property_id,
                user_id := c.user_id, vote_option_id := c.vote_option_id,
                created_at := db.now }, ?_, rfl⟩
      show List.filter _ (db.votes ++ [_]) = _
      rw [List.filter_append]
      have h1 : List.filter (pairMatch c.property_id c.user_id) db.votes = [] := h
      rw [h1]
      simp [pairMatch]
  | cons e t =>
      have hlen := selectVotes_length_le_one db hdb c.property_id c.user_id
      rw [h] at hlen
      have ht : t = [] := by
        cases t with
        | nil => rfl
        | cons _ _ => simp at hlen
      subst ht
      have he : pairMatch c.property_id c.user_id e = true := by
        have : e ∈ selectVotesByPair db c.property_id c.user_id := by
          rw [h]; exact List.mem_cons_self _ _
        exact (List.mem_filter.mp this).2
      refine ⟨{ id := e.id, property_id := e.property_id, user_id := e.user_id,
                vote_option_id := c.vote_option_id, created_at := db.now },
              ?_, rfl⟩
      show List.filter _ (db.votes.map _) = _
      rw [List.filter_map,
          List.filter_congr (fun v _ => by
            exact (pairMatch_update c.property_id c.user_id c.vote_option_id
              db.now c.property_id c.user_id v))]
      have h1 : List.filter (pairMatch c.property_id c.user_id) db.votes = [e] := h
      rw [h1]
      simp [he]

/-- A cast for a different pair leaves the rows of this pair untouched. -/
theorem selectVotes_castStep_other (db : Db) (c : Cast) (pid uid : Nat)
    (hne : ¬(c.property_id = pid ∧ c.user_id = uid)) :
    selectVotesByPair (castStep db c) pid uid = selectVotesByPair db pid uid := by
  unfold castStep createOrUpdateVote
  cases h : selectVotesByPair db c.property_id c.user_id with
  | nil =>
      show List.filter _ (db.votes ++ [_]) = _
      rw [List.filter_append]
      have : pairMatch pid uid
          { id := db.nextVoteId, property_id := c.property_id,
            user_id := c.user_id, vote_option_id := c.vote_option_id,
            created_at := db.now } = false := by
        rw [← Bool.not_eq_true]
        intro hmatch
        exact hne ((pairMatch_iff pid uid _).mp hmatch)
      simp [this, selectVotesByPair]
  | cons e t =>
      show List.filter _ (db.votes.map _) = _
      rw [List.filter_map,
          List.filter_congr (fun v _ => by
            exact (pairMatch_update c.property_id c.user_id c.vote_option_id
              db.now pid uid v))]
      apply List.map_congr_left ?_ |>.trans (List.map_id _)
      intro v hv
      have hv2 := (pairMatch_iff pid uid v).mp (List.mem_filter.mp hv).2
      have : pairMatch c.property_id c.user_id v = false := by
        rw [← Bool.not_eq_true]
        intro hmatch
        have hv3 := (pairMatch_iff c.property_id c.user_id v).mp hmatch
        exact hne ⟨hv3.1 ▸ hv2.1, hv3.2 ▸ hv2.2⟩
      simp [this]

/-- `createOrUpdateVote` preserves the uniqueness invariant: the update
path rewrites rows in place, the insert path only fires when the SELECT
found no row for the pair. -/
theorem uniquePairs_castStep (db : Db) (hdb : UniquePairs db) (c : Cast) :
    UniquePairs (castStep db c) := by
  unfold castStep createOrUpdateVote
  cases h : selectVotesByPair db c.property_id c.user_id with
  | nil =>
      show List.Pairwise _ (db.votes ++ [_])
      rw [List.pairwise_append]
      refine ⟨hdb, List.pairwise_singleton _ _, ?_⟩
      intro a ha b hb
      rw [List.mem_singleton] at hb
      subst hb
      intro ⟨h1, h2⟩
      have : pairMatch c.property_id c.user_id a = true :=
        (pairMatch_iff _ _ a).mpr ⟨h1, h2⟩
      exact (List.filter_eq_nil_iff.mp h a (by assumption)) this
  | cons e t =>
      show List.Pairwise _ (db.votes.map _)
      refine List.Pairwise.map _ ?_ hdb
      intro a b hab ⟨h1, h2⟩
      apply hab
      by_cases hma : pairMatch c.property_id c.user_id a = true <;>
        by_cases hmb : pairMatch c.property_id c.user_id b = true <;>
        simp [hma, hmb] at h1 h2 <;> exact ⟨h1, h2⟩

/-- A sequence containing no cast for the pair leaves the pair's rows
untouched. -/
theorem selectVotes_castSeq_none (cs : List Cast) (db : Db) (pid uid : Nat)
    (h : lastCast cs pid uid = none) :
    selectVotesByPair (castSeq db cs) pid uid = selectVotesByPair db pid uid := by
  induction cs generalizing db with
  | nil => rfl
  | cons c cs ih =>
      cases hcs : lastCast cs pid uid with
      | some o => simp [lastCast, hcs] at h
      | none =>
          simp only [lastCast, hcs] at h
          have hne : ¬(c.property_id = pid ∧ c.user_id = uid) := by
            intro ⟨h1, h2⟩
            simp [h1, h2] at h
          show selectVotesByPair (castSeq (castStep db c) cs) pid uid = _
          rw [ih (castStep db c) hcs, selectVotes_castStep_other db c pid uid hne]

/-! ## Claim theorems -/

/-- Claim C1: starting from any state satisfying the
`UNIQUE(property_id, user_id)` invariant, after any sequence of
`castOrUpdateVote` calls, every pair that was cast at least once has
exactly one vote row, and its `vote_option_id` equals the last applied
call's argument — a repeat vote updates the existing row in place and
never creates a second row. -/
theorem castOrUpdateVote_exactly_one_row_last_write_wins :
    ∀ (calls : List Cast) (db : Db), UniquePairs db →
    ∀ pid uid oid : Nat, lastCast calls pid uid = some oid →
    ∃ r, selectVotesByPair (castSeq db calls) pid uid = [r] ∧
         r.vote_option_id = oid := by
  intro calls
  induction calls with
  | nil => intro db _ pid uid oid hlast; simp [lastCast] at hlast
  | cons c cs ih =>
      intro db hdb pid uid oid hlast
      cases hcs : lastCast cs pid uid with
      | some o =>
          have ho : o = oid := by
            simp only [lastCast, hcs] at hlast
            exact Option.some.inj hlast
          subst ho
          exact ih (castStep db c) (uniquePairs_castStep db hdb c) pid uid o hcs
      | none =>
          simp only [lastCast, hcs] at hlast
          by_cases hc : (c.property_id == pid && c.user_id == uid) = true
          · rw [if_pos hc] at hlast
            have hoid : c.vote_option_id = oid := Option.some.inj hlast
            simp only [Bool.and_eq_true, beq_iff_eq] at hc
            obtain ⟨hp, hu⟩ := hc
            show ∃ r, selectVotesByPair (castSeq (castStep db c) cs) pid uid
                = [r] ∧ r.vote_option_id = oid
            rw [selectVotes_castSeq_none cs _ pid uid hcs]
            obtain ⟨r, hr1, hr2⟩ := selectVotes_castStep_self db hdb c
            rw [hp, hu] at hr1
            exact ⟨r, hr1, hoid ▸ hr2⟩
          · rw [if_neg hc] at hlast
            exact absurd hlast (by simp)

/-- Witness for C1: user 1 casts Buy then Rent on property 1 starting from
the no-votes state; exactly one row remains and it holds Rent. -/
theorem castOrUpdateVote_exactly_one_row_last_write_wins_witness :
    ∃ r, selectVotesByPair (castSeq db0 [⟨1, 1, 2⟩, ⟨1, 1, 1⟩]) 1 1 = [r] ∧
         r.vote_option_id = 1 :=
  castOrUpdateVote_exactly_one_row_last_write_wins
    [⟨1, 1, 2⟩, ⟨1, 1, 1⟩] db0 (by decide) 1 1 1 (by decide)

/-- Claim C2, evaluated at the failing input: a lost insert race is not
converted into an update.  User 1 and a concurrent request both cast on
property 1; the loser's SELECT runs against the snapshot `db0` (no row),
so it takes the INSERT path, but the committed state is already `db1`
(the winner inserted the pair), so the INSERT raises the
unique-constraint violation; the catch block of voteModel.js rolls back
and rethrows, making the duplicate-key error the call's final result
instead of an update. -/
theorem createOrUpdateVote_race_propagates_duplicate_key :
    createOrUpdateVoteRaced db0 db1 1 1 2
      = (db1, Except.error DbErr.uniqueViolation) := by
  rfl

/-- Claim C6: `castOrUpdateVote` is atomic on failure.  An error injected
at any of the three steps before the commit completes (the SELECT, the
UPDATE/INSERT, the COMMIT) reaches the ROLLBACK in the catch block, so
the state visible after the call equals the state before it; a
failure-free run commits exactly the sequential write. -/
theorem createOrUpdateVote_atomic_on_failure :
    ∀ (db : Db) (pid uid oid : Nat),
      (∀ k : Fin 3, createOrUpdateVoteTx db pid uid oid (some k)
        = (db, Except.error DbErr.unavailable)) ∧
      createOrUpdateVoteTx db pid uid oid none
        = ((createOrUpdateVote db pid uid oid).1,
           Except.ok (createOrUpdateVote db pid uid oid).2) := by
  intro db pid uid oid
  refine ⟨fun k => ?_, rfl⟩
  fin_cases k <;> rfl

/-- Claim C7: `deleteVote` reports `true` exactly when a row for the pair
existed (`false` is surfaced as 404 NotFound by the route, distinct from
success), and `getUserVote` immediately after `retractVote` finds
nothing. -/
theorem deleteVote_distinct_outcomes_then_getUserVote_notFound :
    ∀ (db : Db) (pid uid : Nat),
      ((deleteVote db pid uid).2 = true ↔
        ∃ v ∈ db.votes, pairMatch pid uid v = true) ∧
      getVoteByUserAndProperty (deleteVote db pid uid).1 pid uid = none := by
  intro db pid uid
  constructor
  · show (!(selectVotesByPair db pid uid).isEmpty) = true ↔ _
    rw [Bool.not_eq_true', List.isEmpty_eq_false_iff_exists_mem]
    constructor
    · rintro ⟨v, hv⟩
      exact ⟨v, (List.mem_filter.mp hv).1, (List.mem_filter.mp hv).2⟩
    · rintro ⟨v, hv, hm⟩
      exact ⟨v, List.mem_filter.mpr ⟨hv, hm⟩⟩
  · have hsel : selectVotesByPair (deleteVote db pid uid).1 pid uid = [] := by
      show List.filter _ (List.filter _ db.votes) = []
      rw [List.filter_filter]
      apply List.filter_eq_nil_iff.mpr
      intro a _
      simp
    show (List.filterMap _ (selectVotesByPair (deleteVote db pid uid).1 pid uid)).head? = none
    rw [hsel]
    rfl

/-- Witness for C7 at a concrete state: deleting user 1's existing vote on
property 1 reports `true` and a following lookup finds nothing. -/
theorem deleteVote_distinct_outcomes_then_getUserVote_notFound_witness :
    ((deleteVote db1 1 1).2 = true ↔
      ∃ v ∈ db1.votes, pairMatch 1 1 v = true) ∧
    getVoteByUserAndProperty (deleteVote db1 1 1).1 1 1 = none :=
  deleteVote_distinct_outcomes_then_getUserVote_notFound db1 1 1

/-- Claim C3 counterexample: the part_003 `POST /votes` handler (one of
the two cast-vote handlers the claim covers) performs no category check.
Property 1 belongs to category 1 and option 5 to category 2, yet the cast
returns 201 and writes the vote row instead of failing with 400 and
writing nothing. -/
theorem part003VotesPost_accepts_cross_category_and_writes :
    part003VotesPost db0 "uid1"
        { property_id := some 1, vote_option_id := some 5, user_id := none }
      = ({ db0 with
            votes := [{ id := 1, property_id := 1, user_id := 1,
                        vote_option_id := 5, created_at := 0 }],
            nextVoteId := 2, now := 1 },
         P3VotesResp.createdData
           { id := 1, property_id := 1, user_id := 1,
             vote_option_id := 5, created_at := 0 }
           "Vote recorded successfully") ∧
    (db0.vote_options.find? (fun o => o.id == 5)).map VoteOptionRow.category_id
      = some 2 ∧
    db0.properties.find? (fun q => q.id == 1)
      = some { id := 1, category_id := 1 } := by
  refine ⟨rfl, rfl, rfl⟩

/-- Claim C3 amended: in the src/backend/routes/votes.js handler, a cast
whose `vote_option_id` matches no vote option of the property's category
fails with 400 (Bad Request, "Invalid vote option for this property
category") and writes nothing; the part_003 `POST /votes` variant performs
no such check and records the cross-category vote. -/
theorem routesVotesPost_cross_category_rejected_writes_nothing :
    ∀ (db : Db) (user : UserRow) (body : VoteReqBody) (p : PropertyRow),
      jsFalsy body.property_id = false → jsFalsy body.vote_option_id = false →
      db.properties.find? (fun q => q.id == body.property_id.getD 0) = some p →
      (∀ o ∈ db.vote_options, o.category_id = p.category_id →
        o.id ≠ body.vote_option_id.getD 0) →
      routesVotesPost db user body
        = (db, RoutesVotesResp.badRequest
            "Invalid vote option for this property category") := by
  intro db user body p h1 h2 hp hno
  have hany : (getVoteOptionsByCategory db p.category_id).any
      (fun o => o.id == body.vote_option_id.getD 0) = false := by
    rw [List.any_eq_false]
    intro o ho
    have hmem := List.mem_filter.mp ho
    have hcat : o.category_id = p.category_id := by simpa using hmem.2
    simp [hno o hmem.1 hcat]
  simp [routesVotesPost, h1, h2, hp, hany]

/-- Witness for the amended C3: at the base state, casting option 5
(category 2) on property 1 (category 1) through the routes/votes.js
handler is rejected with 400 and leaves the state unchanged. -/
theorem routesVotesPost_cross_category_rejected_writes_nothing_witness :
    routesVotesPost db0 { id := 1, firebase_uid := "uid1" }
        { property_id := some 1, vote_option_id := some 5, user_id := none }
      = (db0, RoutesVotesResp.badRequest
          "Invalid vote option for this property category") :=
  routesVotesPost_cross_category_rejected_writes_nothing db0
    { id := 1, firebase_uid := "uid1" }
    { property_id := some 1, vote_option_id := some 5, user_id := none }
    { id := 1, category_id := 1 } rfl rfl rfl (by decide)

/-- Claim C4 counterexample: the part_004 stats handler has no category
filter.  For property 1 (category 1) it returns an entry for option 5,
which belongs to category 2 — an option outside the property's category
option set. -/
theorem part004_stats_include_foreign_category_option :
    db0.properties.find? (fun q => q.id == 1)
      = some { id := 1, category_id := 1 } ∧
    (∃ o ∈ db0.vote_options, o.id = 5 ∧ o.category_id = 2) ∧
    ∃ s ∈ part004StatsRows db0 1, s.vote_option_id = 5 := by
  decide

/-- Claim C4 amended: the part_003 stats handler returns, for every
existing property, exactly one statistics entry per vote option of the
property's category — options with zero votes included, no entries for
any other option; the part_004 variant instead returns one entry for
every vote option in the database, regardless of category. -/
theorem part003_stats_covers_exactly_category_options :
    ∀ (db : Db) (pid : Nat) (p : PropertyRow),
      db.properties.find? (fun q => q.id == pid) = some p →
      ((part003StatsRows db pid).map StatRow.vote_option_id
          = (db.vote_options.filter
              (fun o => o.category_id == p.category_id)).map VoteOptionRow.id) ∧
      (∀ o ∈ db.vote_options, o.category_id = p.category_id →
        ∃ s ∈ part003StatsRows db pid, s.vote_option_id = o.id ∧
          s.vote_count = countVotesFor db pid o.id) ∧
      (∀ s ∈ part003StatsRows db pid, ∃ o ∈ db.vote_options,
        o.category_id = p.category_id ∧ s.vote_option_id = o.id) := by
  intro db pid p hp
  have hrows : part003StatsRows db pid
      = statRowsOver db pid
          (db.vote_options.filter (fun o => o.category_id == p.category_id)) := by
    simp [part003StatsRows, hp]
  refine ⟨?_, ?_, ?_⟩
  · rw [hrows, statRowsOver, List.map_map]; rfl
  · intro o ho hcat
    refine ⟨statRowFor db pid
      (windowTotal db pid
        (db.vote_options.filter (fun o => o.category_id == p.category_id))) o,
      ?_, rfl, rfl⟩
    rw [hrows, statRowsOver]
    exact List.mem_map_of_mem _ (List.mem_filter.mpr ⟨ho, by simp [hcat]⟩)
  · intro s hs
    rw [hrows, statRowsOver] at hs
    obtain ⟨o, ho, rfl⟩ := List.mem_map.mp hs
    have hmem := List.mem_filter.mp ho
    exact ⟨o, hmem.1, by simpa using hmem.2, rfl⟩

/-- Witness for the amended C4 at the state with one Rent vote: the
statistics cover exactly options 1 and 2 (category 1), never option 5. -/
theorem part003_stats_covers_exactly_category_options_witness :
    ((part003StatsRows db1 1).map StatRow.vote_option_id
        = (db1.vote_options.filter
            (fun o => o.category_id == (1 : Nat))).map VoteOptionRow.id) ∧
    (∀ o ∈ db1.vote_options, o.category_id = 1 →
      ∃ s ∈ part003StatsRows db1 1, s.vote_option_id = o.id ∧
        s.vote_count = countVotesFor db1 1 o.id) ∧
    (∀ s ∈ part003StatsRows db1 1, ∃ o ∈ db1.vote_options,
      o.category_id = 1 ∧ s.vote_option_id = o.id) :=
  part003_stats_covers_exactly_category_options db1 1
    { id := 1, category_id := 1 } rfl

/-! ## Rounding error bounds for the percentage computation -/

/-- Rounding to 2 decimal places moves a rational by at most 1/200. -/
theorem round2_abs_err (x : ℚ) : |round2 x - x| ≤ 1 / 200 := by
  have h := abs_sub_round (x * 100)
  have heq : round2 x - x = ((round (x * 100) : ℚ) - x * 100) / 100 := by
    rw [round2]; ring
  rw [heq, abs_div, abs_of_pos (show (0 : ℚ) < 100 by norm_num)]
  rw [abs_sub_comm] at h
  linarith

/-- Summing 2-decimal roundings moves a sum by at most `n`/200. -/
theorem sum_round2_near (xs : List ℚ) :
    |(xs.map round2).sum - xs.sum| ≤ xs.length * (1 / 200) := by
  induction xs with
  | nil => simp
  | cons x xs ih =>
      simp only [List.map_cons, List.sum_cons, List.length_cons]
      have h1 : round2 x + (xs.map round2).sum - (x + xs.sum)
          = (round2 x - x) + ((xs.map round2).sum - xs.sum) := by ring
      rw [h1]
      calc |(round2 x - x) + ((xs.map round2).sum - xs.sum)|
          ≤ |round2 x - x| + |(xs.map round2).sum - xs.sum| := abs_add _ _
        _ ≤ 1 / 200 + xs.length * (1 / 200) :=
            add_le_add (round2_abs_err x) ih
        _ = ((xs.length + 1 : ℕ) : ℚ) * (1 / 200) := by push_cast; ring

/-- Claim C5 counterexample: at a property with zero votes the SQL
percentage is `NULL` for every option (because of
`NULLIF(SUM(COUNT(v.id)) OVER(), 0)`), not the number 0. -/
theorem part003_stats_zero_total_gives_null_percentages :
    votesTotalForProperty db0 1 = 0 ∧
    (part003StatsRows db0 1).map StatRow.percentage = [none, none] ∧
    (part003StatsRows db0 1).length = 2 := by
  refine ⟨rfl, rfl, rfl⟩

/-- Claim C5 amended: in both stats handlers, when the window total is 0
every percentage is SQL NULL (JSON null), not 0; when the window total is
positive, each percentage equals count * 100 / total rounded to 2 decimal
places, and the percentages sum to 100 up to rounding (within n/200 for n
options). -/
theorem stats_percentages_round2_and_sum_near_100 :
    ∀ (db : Db) (pid : Nat) (opts : List VoteOptionRow),
      (windowTotal db pid opts = 0 →
        ∀ s ∈ statRowsOver db pid opts, s.percentage = none) ∧
      (0 < windowTotal db pid opts →
        (∀ s ∈ statRowsOver db pid opts,
          s.percentage = some (round2 ((s.vote_count : ℚ) * 100
            / (windowTotal db pid opts : ℚ)))) ∧
        |((statRowsOver db pid opts).map
            (fun s => s.percentage.getD 0)).sum - 100|
          ≤ (statRowsOver db pid opts).length * (1 / 200)) := by
  intro db pid opts
  constructor
  · intro h0 s hs
    obtain ⟨o, _, rfl⟩ := List.mem_map.mp hs
    simp [statRowFor, statPercentage, h0]
  · intro hT
    have hT0 : windowTotal db pid opts ≠ 0 := Nat.pos_iff_ne_zero.mp hT
    have hTQ : (windowTotal db pid opts : ℚ) ≠ 0 := Nat.cast_ne_zero.mpr hT0
    constructor
    · intro s hs
      obtain ⟨o, _, rfl⟩ := List.mem_map.mp hs
      simp [statRowFor, statPercentage, hT0]
    · have hmap : (statRowsOver db pid opts).map (fun s => s.percentage.getD 0)
          = (opts.map (fun o => (countVotesFor db pid o.id : ℚ) * 100
              / (windowTotal db pid opts : ℚ))).map round2 := by
        rw [statRowsOver, List.map_map, List.map_map]
        apply List.map_congr_left
        intro o _
        simp [statRowFor, statPercentage, hT0]
      have hxs : (opts.map (fun o => (countVotesFor db pid o.id : ℚ) * 100
          / (windowTotal db pid opts : ℚ))).sum = 100 := by
        rw [List.map_congr_left (fun o _ =>
          mul_div_assoc (countVotesFor db pid o.id : ℚ) 100
            (windowTotal db pid opts : ℚ))]
        rw [List.sum_map_mul_right]
        have h2 : (opts.map (fun o => (countVotesFor db pid o.id : ℚ))).sum
            = (windowTotal db pid opts : ℚ) := by
          rw [windowTotal, Nat.cast_list_sum, List.map_map]; rfl
        rw [h2]
        field_simp
      rw [hmap]
      calc |((opts.map (fun o => (countVotesFor db pid o.id : ℚ) * 100
              / (windowTotal db pid opts : ℚ))).map round2).sum - 100|
          = |((opts.map (fun o => (countVotesFor db pid o.id : ℚ) * 100
              / (windowTotal db pid opts : ℚ))).map round2).sum
              - (opts.map (fun o => (countVotesFor db pid o.id : ℚ) * 100
                  / (windowTotal db pid opts : ℚ))).sum| := by rw [hxs]
        _ ≤ (opts.map (fun o => (countVotesFor db pid o.id : ℚ) * 100
              / (windowTotal db pid opts : ℚ))).length * (1 / 200) :=
            sum_round2_near _
        _ = (statRowsOver db pid opts).length * (1 / 200) := by
            simp [statRowsOver]

/-- Witness for the amended C5 at the one-vote state: the window total
over the category-1 options of property 1 is positive, each percentage is
the rounded quotient, and the percentages sum to 100 up to rounding. -/
theorem stats_percentages_round2_and_sum_near_100_witness :
    (∀ s ∈ statRowsOver db1 1
        (db1.vote_options.filter (fun o => o.category_id == (1 : Nat))),
      s.percentage = some (round2 ((s.vote_count : ℚ) * 100
        / (windowTotal db1 1
            (db1.vote_options.filter (fun o => o.category_id == (1 : Nat))) : ℚ)))) ∧
    |((statRowsOver db1 1
        (db1.vote_options.filter (fun o => o.category_id == (1 : Nat)))).map
          (fun s => s.percentage.getD 0)).sum - 100|
      ≤ (statRowsOver db1 1
          (db1.vote_options.filter (fun o => o.category_id == (1 : Nat)))).length
        * (1 / 200) :=
  (stats_percentages_round2_and_sum_near_100 db1 1
    (db1.vote_options.filter (fun o => o.category_id == (1 : Nat)))).2
    (by decide)

/-- Claim C8, evaluated at failing inputs: `total_votes` comes from a
second, separate query and need not equal the sum of the returned
per-option counts.  At the single state `dbX` — reachable through the
part_003 `POST /votes`, which accepts a cross-category vote — the
statistics rows sum to 0 while `total_votes` is 1; and with a vote
committed between the two unsynchronized queries (statistics read at
`db0`, total read at `db1`) the same disagreement appears. -/
theorem part003_stats_total_disagrees_with_sum_of_counts :
    (((part003StatsEndpoint dbX dbX 1).1.map StatRow.vote_count).sum = 0 ∧
      (part003StatsEndpoint dbX dbX 1).2 = 1) ∧
    (((part003StatsEndpoint db0 db1 1).1.map StatRow.vote_count).sum = 0 ∧
      (part003StatsEndpoint db0 db1 1).2 = 1) := by
  refine ⟨⟨rfl, rfl⟩, ⟨rfl, rfl⟩⟩

/-- Claim C9 counterexample: on an idempotent re-vote (user 1 already
voted on property 1), the part_003 `POST /votes` does not respond 201
with the updated row: it responds 400 with an already-voted error and
leaves the row unchanged. -/
theorem part003_revote_rejected_with_400 :
    part003VotesPost db1 "uid1"
        { property_id := some 1, vote_option_id := some 2, user_id := none }
      = (db1, P3VotesResp.badRequestErr "You have already voted for this property") ∧
    (P3VotesResp.badRequestErr "You have already voted for this property").status
      = 400 := by
  refine ⟨rfl, rfl⟩

/-- Claim C9 amended: the routes/votes.js handler responds 400 with keys
`error` and `message` (no `success` flag) on missing fields, 404 when the
property does not exist, and 201 with keys `message` and `vote` (not
`success`/`data`) carrying the created-or-updated row for a valid option
— the same shape on an idempotent re-vote, which is not an error.  The
part_003 variant responds 400 with `success: false` on missing fields and
rejects a re-vote with 400 instead of updating. -/
theorem votes_post_response_contract :
    (∀ (db : Db) (u : UserRow) (body : VoteReqBody),
      (jsFalsy body.property_id || jsFalsy body.vote_option_id) = true →
      routesVotesPost db u body = (db, RoutesVotesResp.badRequest
        "Missing required fields: property_id, vote_option_id")) ∧
    (∀ (db : Db) (u : UserRow) (body : VoteReqBody),
      (jsFalsy body.property_id || jsFalsy body.vote_option_id) = false →
      db.properties.find? (fun p => p.id == body.property_id.getD 0) = none →
      routesVotesPost db u body
        = (db, RoutesVotesResp.notFound "Property not found")) ∧
    (∀ (db : Db) (u : UserRow) (body : VoteReqBody) (p : PropertyRow),
      (jsFalsy body.property_id || jsFalsy body.vote_option_id) = false →
      db.properties.find? (fun q => q.id == body.property_id.getD 0) = some p →
      (getVoteOptionsByCategory db p.category_id).any
        (fun o => o.id == body.vote_option_id.getD 0) = true →
      routesVotesPost db u body
        = ((createOrUpdateVote db (body.property_id.getD 0) u.id
              (body.vote_option_id.getD 0)).1,
           RoutesVotesResp.created "Vote recorded successfully"
             (createOrUpdateVote db (body.property_id.getD 0) u.id
               (body.vote_option_id.getD 0)).2)) ∧
    (∀ (db : Db) (uidStr : String) (body : VoteReqBody),
      (jsFalsy body.property_id || jsFalsy body.vote_option_id) = true →
      part003VotesPost db uidStr body
        = (db, P3VotesResp.badRequestErr
            "Property ID and vote option ID are required")) ∧
    (∀ (db : Db) (uidStr : String) (body : VoteReqBody) (u : UserRow),
      (jsFalsy body.property_id || jsFalsy body.vote_option_id) = false →
      db.users.find? (fun w => w.firebase_uid == uidStr) = some u →
      selectVotesByPair db (body.property_id.getD 0) u.id ≠ [] →
      part003VotesPost db uidStr body
        = (db, P3VotesResp.badRequestErr
            "You have already voted for this property")) := by
  refine ⟨?_, ?_, ?_, ?_, ?_⟩
  · intro db u body h1
    simp [routesVotesPost, h1]
  · intro db u body h1 hp
    simp [routesVotesPost, h1, hp]
  · intro db u body p h1 hp hany
    simp [routesVotesPost, h1, hp, hany]
  · intro db uidStr body h1
    simp [part003VotesPost, h1]
  · intro db uidStr body u h1 hu hsel
    cases hs : selectVotesByPair db (body.property_id.getD 0) u.id with
    | nil => exact absurd hs hsel
    | cons e t => simp [part003VotesPost, h1, hu, hs]

/-- Witness for the amended C9: each branch exercised at a concrete
state — missing fields, unknown property, valid first vote, part_003
missing fields, and part_003 re-vote. -/
theorem votes_post_response_contract_witness :
    (routesVotesPost db0 { id := 1, firebase_uid := "uid1" }
        { property_id := none, vote_option_id := some 1, user_id := none }
      = (db0, RoutesVotesResp.badRequest
          "Missing required fields: property_id, vote_option_id")) ∧
    (routesVotesPost db0 { id := 1, firebase_uid := "uid1" }
        { property_id := some 9, vote_option_id := some 1, user_id := none }
      = (db0, RoutesVotesResp.notFound "Property not found")) ∧
    (routesVotesPost db0 { id := 1, firebase_uid := "uid1" }
        { property_id := some 1, vote_option_id := some 2, user_id := none }
      = ((createOrUpdateVote db0 1 1 2).1,
         RoutesVotesResp.created "Vote recorded successfully"
           (createOrUpdateVote db0 1 1 2).2)) ∧
    (part003VotesPost db0 "uid1"
        { property_id := none, vote_option_id := none, user_id := none }
      = (db0, P3VotesResp.badRequestErr
          "Property ID and vote option ID are required")) ∧
    (part003VotesPost db1 "uid1"
        { property_id := some 1, vote_option_id := some 1, user_id := none }
      = (db1, P3VotesResp.badRequestErr
          "You have already voted for this property")) :=
  ⟨votes_post_response_contract.1 db0 { id := 1, firebase_uid := "uid1" }
      { property_id := none, vote_option_id := some 1, user_id := none } rfl,
   votes_post_response_contract.2.1 db0 { id := 1, firebase_uid := "uid1" }
      { property_id := some 9, vote_option_id := some 1, user_id := none } rfl rfl,
   votes_post_response_contract.2.2.1 db0 { id := 1, firebase_uid := "uid1" }
      { property_id := some 1, vote_option_id := some 2, user_id := none }
      { id := 1, category_id := 1 } rfl rfl rfl,
   votes_post_response_contract.2.2.2.1 db0 "uid1"
      { property_id := none, vote_option_id := none, user_id := none } rfl,
   votes_post_response_contract.2.2.2.2 db1 "uid1"
      { property_id := some 1, vote_option_id := some 1, user_id := none }
      { id := 1, firebase_uid := "uid1" } rfl rfl (by decide)⟩

/-- The UPDATE of voteModel.js never changes a row's `user_id`. -/
theorem userMatch_update (cpid cuid oid n uid : Nat) (v : VoteRow) :
    (!((if pairMatch cpid cuid v then
          { v with vote_option_id := oid, created_at := n } else v).user_id == uid))
      = (!(v.user_id == uid)) := by
  by_cases h : pairMatch cpid cuid v = true
  · rw [if_pos h]
  · rw [if_neg h]

/-- `createOrUpdateVote` leaves the votes of every other user exactly as
they were: the UPDATE touches only rows of the given pair and the INSERT
appends a row owned by the given user. -/
theorem createOrUpdateVote_preserves_other_users (db : Db) (pid uid oid : Nat) :
    (createOrUpdateVote db pid uid oid).1.votes.filter
        (fun v => !(v.user_id == uid))
      = db.votes.filter (fun v => !(v.user_id == uid)) := by
  unfold createOrUpdateVote
  cases h : selectVotesByPair db pid uid with
  | nil =>
      show List.filter _ (db.votes ++ [_]) = _
      rw [List.filter_append]
      simp
  | cons e t =>
      show List.filter _ (db.votes.map _) = _
      rw [List.filter_map, List.filter_congr (fun v _ => by
        exact userMatch_update pid uid oid db.now uid v)]
      apply (List.map_congr_left ?_).trans (List.map_id _)
      intro v hv
      have hvm := (List.mem_filter.mp hv).2
      have hpm : pairMatch pid uid v = false := by
        rw [← Bool.not_eq_true]
        intro hm
        have hv2 := (pairMatch_iff pid uid v).mp hm
        simp [hv2.2] at hvm
      rw [if_neg (by simp [hpm])]
      rfl

/-- Claim C10: both cast-vote handlers record the vote under the
authenticated caller's resolved identity.  The body's `user_id` field is
never read — two requests differing only in it produce identical outcomes
and identical states — and the votes of every other user are exactly
preserved, so a caller can never create or overwrite another user's
vote. -/
theorem votes_post_user_identity_from_auth :
    (∀ (db : Db) (u : UserRow) (body : VoteReqBody) (x : Option Nat),
      routesVotesPost db u { body with user_id := x }
        = routesVotesPost db u body) ∧
    (∀ (db : Db) (uidStr : String) (body : VoteReqBody) (x : Option Nat),
      part003VotesPost db uidStr { body with user_id := x }
        = part003VotesPost db uidStr body) ∧
    (∀ (db : Db) (u : UserRow) (body : VoteReqBody),
      (routesVotesPost db u body).1.votes.filter (fun v => !(v.user_id == u.id))
        = db.votes.filter (fun v => !(v.user_id == u.id))) ∧
    (∀ (db : Db) (uidStr : String) (body : VoteReqBody) (u : UserRow),
      db.users.find? (fun w => w.firebase_uid == uidStr) = some u →
      (part003VotesPost db uidStr body).1.votes.filter
          (fun v => !(v.user_id == u.id))
        = db.votes.filter (fun v => !(v.user_id == u.id))) := by
  refine ⟨?_, ?_, ?_, ?_⟩
  · intro db u body x
    cases body
    rfl
  · intro db uidStr body x
    cases body
    rfl
  · intro db u body
    by_cases h1 : (jsFalsy body.property_id || jsFalsy body.vote_option_id) = true
    · simp [routesVotesPost, h1]
    · rw [Bool.not_eq_true] at h1
      cases hp : db.properties.find? (fun p => p.id == body.property_id.getD 0) with
      | none => simp [routesVotesPost, h1, hp]
      | some p =>
          by_cases h2 : (getVoteOptionsByCategory db p.category_id).any
              (fun o => o.id == body.vote_option_id.getD 0) = true
          · have hred : (routesVotesPost db u body).1
                = (createOrUpdateVote db (body.property_id.getD 0) u.id
                    (body.vote_option_id.getD 0)).1 := by
              simp [routesVotesPost, h1, hp, h2]
            rw [hred]
            exact createOrUpdateVote_preserves_other_users db
              (body.property_id.getD 0) u.id (body.vote_option_id.getD 0)
          · simp [routesVotesPost, h1, hp, h2]
  · intro db uidStr body u hu
    by_cases h1 : (jsFalsy body.property_id || jsFalsy body.vote_option_id) = true
    · simp [part003VotesPost, h1]
    · rw [Bool.not_eq_true] at h1
      cases hs : selectVotesByPair db (body.property_id.getD 0) u.id with
      | cons e t => simp [part003VotesPost, h1, hu, hs]
      | nil =>
          by_cases hfk : (db.properties.any
              (fun p => p.id == body.property_id.getD 0) &&
            db.vote_options.any
              (fun o => o.id == body.vote_option_id.getD 0)) = true
          · simp [part003VotesPost, h1, hu, hs, hfk, List.filter_append]
          · simp [part003VotesPost, h1, hu, hs, hfk]

/-- Witness for C10: at the base state, setting the body's `user_id` to 99
changes nothing in either handler, and the part_003 ownership conjunct is
discharged for the resolved caller user 1. -/
theorem votes_post_user_identity_from_auth_witness :
    (routesVotesPost db0 { id := 1, firebase_uid := "uid1" }
        { property_id := some 1, vote_option_id := some 2, user_id := some 99 }
      = routesVotesPost db0 { id := 1, firebase_uid := "uid1" }
          { property_id := some 1, vote_option_id := some 2, user_id := none }) ∧
    (part003VotesPost db0 "uid1"
        { property_id := some 1, vote_option_id := some 2, user_id := some 99 }
      = part003VotesPost db0 "uid1"
          { property_id := some 1, vote_option_id := some 2, user_id := none }) ∧
    ((part003VotesPost db0 "uid1"
        { property_id := some 1, vote_option_id := some 2, user_id := none }).1.votes.filter
          (fun v => !(v.user_id == (1 : Nat)))
      = db0.votes.filter (fun v => !(v.user_id == (1 : Nat)))) :=
  ⟨votes_post_user_identity_from_auth.1 db0 { id := 1, firebase_uid := "uid1" }
      { property_id := some 1, vote_option_id := some 2, user_id := none } (some 99),
   votes_post_user_identity_from_auth.2.1 db0 "uid1"
      { property_id := some 1, vote_option_id := some 2, user_id := none } (some 99),
   votes_post_user_identity_from_auth.2.2.2 db0 "uid1"
      { property_id := some 1, vote_option_id := some 2, user_id := none }
      { id := 1, firebase_uid := "uid1" } rfl⟩

end Mipripity
